import Mathlib

/-!
Verification development for the event fixture generator
(src/generate_test_data.py).

The script builds a list of randomized event records, wraps them in an
envelope object, and serializes the envelope to JSON.  We embed the
generator shallowly: the process-wide random number generator is
modelled as an oracle consulted at successive ticks (one tick per call
to the random library, in source order), together with a lawfulness
predicate stating the documented contracts of the Python random
library (randint is inclusive on both ends, uniform stays inside the
closed interval, choice picks an index below the length, random lies
in the half-open unit interval).  Numeric values are rationals;
strings are Lean strings.
-/

/-- Big-endian decimal digit characters of n, with explicit fuel so the
recursion is structural and the function evaluates by reduction. -/
def natDecimalAux : Nat → Nat → List Char
  | 0, _ => []
  | fuel + 1, n =>
    if n = 0 then [] else natDecimalAux fuel (n / 10) ++ [Nat.digitChar (n % 10)]

/-- Decimal rendering of a natural number, the model of Python
formatting of a nonnegative integer. -/
def natDecimal (n : Nat) : String :=
  if n = 0 then "0" else String.mk (natDecimalAux n n)

/-- Zero padding to width w, the model of Python format specifiers such
as 03d and of the two-digit fields of isoformat. -/
def padNum (w : Nat) (n : Nat) : String :=
  let s := natDecimal n
  if s.length < w then String.mk (List.replicate (w - s.length) '0') ++ s else s

/-- Model of datetime(y, m, d).isoformat() for a date with a zero time
component: the Python isoformat of a naive datetime at midnight. -/
def isoDatetimeMidnight (y m d : Nat) : String :=
  padNum 4 y ++ "-" ++ padNum 2 m ++ "-" ++ padNum 2 d ++ "T00:00:00"

/-- Abstract model of the process-wide random number generator: every
call site consults the oracle at a fresh tick.  The now field models
datetime.now().isoformat(), the wall clock rendering drawn during
iteration i. -/
structure Oracle where
  randint : Int → Int → Nat → Int
  uniform : ℚ → ℚ → Nat → ℚ
  choiceIdx : Nat → Nat → Nat
  random01 : Nat → ℚ
  now : Nat → String

/-- Documented contracts of the Python random library for the four
kinds of draws the script performs. -/
structure LawfulOracle (o : Oracle) : Prop where
  randint_mem : ∀ lo hi t, lo ≤ hi → lo ≤ o.randint lo hi t ∧ o.randint lo hi t ≤ hi
  uniform_mem : ∀ a b t, a ≤ b → a ≤ o.uniform a b t ∧ o.uniform a b t ≤ b
  choiceIdx_lt : ∀ n t, 0 < n → o.choiceIdx n t < n
  random01_mem : ∀ t, 0 ≤ o.random01 t ∧ o.random01 t < 1

/-- Model of random.choice on a list of strings: the element at the
index drawn by the oracle. -/
def choiceStr (o : Oracle) (t : Nat) (xs : List String) : String :=
  xs.getD (o.choiceIdx xs.length t) ""

/-- The bounds sub-object of coordinates. -/
structure Bounds where
  north : ℚ
  south : ℚ
  east : ℚ
  west : ℚ
  deriving Repr, DecidableEq

/-- The coordinates sub-object of an event record. -/
structure Coordinates where
  lat : ℚ
  lng : ℚ
  bounds : Bounds
  deriving Repr, DecidableEq

/-- The metadata sub-object of an event record. -/
structure Metadata where
  confidence : ℚ
  temperature : ℚ
  description : String
  source : String
  processing_time : String
  deriving Repr, DecidableEq

/-- One generated event record, mirroring the dictionary built in the
loop body of generate_test_events. -/
structure Event where
  id : String
  title : String
  timestamp : String
  type : String
  severity : String
  instrument : String
  coordinates : Coordinates
  metadata : Metadata
  deriving Repr, DecidableEq

instance : Inhabited Event :=
  ⟨{ id := "", title := "", timestamp := "", type := "", severity := "",
     instrument := "",
     coordinates := { lat := 0, lng := 0,
                      bounds := { north := 0, south := 0, east := 0, west := 0 } },
     metadata := { confidence := 0, temperature := 0, description := "",
                   source := "", processing_time := "" } }⟩

/-- The constant list instruments of the source. -/
def instruments : List String := ["modis", "viirs", "landsat", "sentinel"]

/-- The constant list types of the source. -/
def types : List String := ["fire", "temperature", "precipitation", "vegetation", "ice"]

/-- The constant list severities of the source. -/
def severities : List String := ["low", "medium", "high", "critical"]

/-- One iteration of the loop body of generate_test_events for index i.
The nine random draws of an iteration occupy ticks 9 i .. 9 i + 8 in
source order: month, day, lat, lng, type, severity, instrument,
confidence, temperature. -/
def makeEvent (o : Oracle) (i : Nat) : Event :=
  let t := 9 * i
  let month := o.randint 1 12 t
  let day := o.randint 1 28 (t + 1)
  let random_lat := o.uniform (-80) 80 (t + 2)
  let random_lng := o.uniform (-170) 170 (t + 3)
  { id := "perf_test_2024_" ++ padNum 3 i
    title := "Performance Test Event " ++ natDecimal (i + 1)
    timestamp := isoDatetimeMidnight 2024 month.toNat day.toNat ++ "Z"
    type := choiceStr o (t + 4) types
    severity := choiceStr o (t + 5) severities
    instrument := choiceStr o (t + 6) instruments
    coordinates :=
      { lat := random_lat
        lng := random_lng
        bounds :=
          { north := random_lat + 0.5
            south := random_lat - 0.5
            east := random_lng + 0.5
            west := random_lng - 0.5 } }
    metadata :=
      { confidence := o.random01 (t + 7)
        temperature := o.uniform 20 70 (t + 8)
        description := "Test event " ++ natDecimal (i + 1) ++ " for performance testing"
        source := "generated"
        processing_time := o.now i ++ "Z" } }

/-- The generator: a list of count records appended in index order
0 .. count - 1, mirroring the loop of generate_test_events. -/
def generate_test_events (o : Oracle) (count : Nat) : List Event :=
  (List.range count).map (makeEvent o)

/-- The top-level envelope object of the script, with its three fields. -/
structure Envelope where
  schemaVersion : Int
  year : Int
  events : List Event
  deriving Repr, DecidableEq

/-- The envelope built by the script for a requested count; the shipped
script calls it at count 500. -/
def test_data (o : Oracle) (count : Nat) : Envelope :=
  { schemaVersion := 1, year := 2024, events := generate_test_events o count }

/-- JSON document values, the model of the documents that json.dump
writes and json.load reads back: numbers, strings, arrays, and objects
with ordered keys. -/
inductive Json where
  | num : ℚ → Json
  | str : String → Json
  | arr : List Json → Json
  | obj : List (String × Json) → Json

/-- Serialization of the bounds sub-object. -/
def encodeBounds (b : Bounds) : Json :=
  .obj [("north", .num b.north), ("south", .num b.south),
        ("east", .num b.east), ("west", .num b.west)]

/-- Serialization of the coordinates sub-object. -/
def encodeCoordinates (c : Coordinates) : Json :=
  .obj [("lat", .num c.lat), ("lng", .num c.lng), ("bounds", encodeBounds c.bounds)]

/-- Serialization of the metadata sub-object. -/
def encodeMetadata (m : Metadata) : Json :=
  .obj [("confidence", .num m.confidence), ("temperature", .num m.temperature),
        ("description", .str m.description), ("source", .str m.source),
        ("processing_time", .str m.processing_time)]

/-- Serialization of one event record. -/
def encodeEvent (e : Event) : Json :=
  .obj [("id", .str e.id), ("title", .str e.title), ("timestamp", .str e.timestamp),
        ("type", .str e.type), ("severity", .str e.severity),
        ("instrument", .str e.instrument),
        ("coordinates", encodeCoordinates e.coordinates),
        ("metadata", encodeMetadata e.metadata)]

/-- Serialization of the envelope, the document json.dump writes. -/
def encodeEnvelope (v : Envelope) : Json :=
  .obj [("schemaVersion", .num (v.schemaVersion : ℚ)),
        ("year", .num (v.year : ℚ)),
        ("events", .arr (v.events.map encodeEvent))]

/-- Deserialization of an integer valued JSON number. -/
def decodeInt : Json → Option Int
  | .num q => if q.den = 1 then some q.num else none
  | _ => none

/-- Deserialization of the bounds sub-object. -/
def decodeBounds : Json → Option Bounds
  | .obj [("north", .num n), ("south", .num s), ("east", .num e), ("west", .num w)] =>
      some { north := n, south := s, east := e, west := w }
  | _ => none

/-- Deserialization of the coordinates sub-object. -/
def decodeCoordinates : Json → Option Coordinates
  | .obj [("lat", .num la), ("lng", .num ln), ("bounds", b)] =>
      (match decodeBounds b with
       | some bb => some { lat := la, lng := ln, bounds := bb }
       | none => none)
  | _ => none

/-- Deserialization of the metadata sub-object. -/
def decodeMetadata : Json → Option Metadata
  | .obj [("confidence", .num cf), ("temperature", .num tp),
          ("description", .str ds), ("source", .str sr),
          ("processing_time", .str pt)] =>
      some { confidence := cf, temperature := tp, description := ds,
             source := sr, processing_time := pt }
  | _ => none

/-- Deserialization of one event record. -/
def decodeEvent : Json → Option Event
  | .obj [("id", .str id), ("title", .str title), ("timestamp", .str ts),
          ("type", .str ty), ("severity", .str sev), ("instrument", .str ins),
          ("coordinates", c), ("metadata", m)] =>
      (match decodeCoordinates c, decodeMetadata m with
       | some co, some me =>
          some { id := id, title := title, timestamp := ts, type := ty,
                 severity := sev, instrument := ins, coordinates := co,
                 metadata := me }
       | _, _ => none)
  | _ => none

/-- Deserialization of the events array. -/
def decodeEvents : List Json → Option (List Event)
  | [] => some []
  | j :: js =>
      (match decodeEvent j, decodeEvents js with
       | some e, some es => some (e :: es)
       | _, _ => none)

/-- Deserialization of the envelope, the model of json.load applied to
the written file. -/
def decodeEnvelope : Json → Option Envelope
  | .obj [("schemaVersion", sv), ("year", y), ("events", .arr js)] =>
      (match decodeInt sv, decodeInt y, decodeEvents js with
       | some s, some yy, some es =>
          some { schemaVersion := s, year := yy, events := es }
       | _, _, _ => none)
  | _ => none

/-- A concrete lawful oracle used to instantiate witnesses: every draw
returns the lower end of its range. -/
def constOracle : Oracle where
  randint := fun lo _ _ => lo
  uniform := fun a _ _ => a
  choiceIdx := fun _ _ => 0
  random01 := fun _ => 0
  now := fun _ => "2026-10-12T00:00:00"

theorem constOracle_lawful : LawfulOracle constOracle := by
  constructor
  · intro lo hi t h; exact ⟨le_refl _, h⟩
  · intro a b t h; exact ⟨le_refl _, h⟩
  · intro n t h; exact h
  · intro t; exact ⟨le_refl _, by simp [constOracle]⟩

/-- Numeric value of a decimal digit character. -/
def digitVal (c : Char) : Nat := c.toNat - 48

/-- Numeric value of a big-endian decimal character list. -/
def decodeDecimal (cs : List Char) : Nat :=
  cs.foldl (fun a c => 10 * a + digitVal c) 0

theorem digitVal_digitChar (d : Nat) (h : d < 10) :
    digitVal (Nat.digitChar d) = d := by
  interval_cases d <;> rfl

theorem decodeDecimal_aux (fuel : Nat) : ∀ n : Nat, n ≤ fuel →
    decodeDecimal (natDecimalAux fuel n) = n := by
  induction fuel with
  | zero => intro n h; interval_cases n; rfl
  | succ fuel ih =>
    intro n h
    by_cases h0 : n = 0
    · subst h0; rfl
    · have hq : n / 10 ≤ fuel := by omega
      have hsplit : decodeDecimal (natDecimalAux fuel (n / 10) ++ [Nat.digitChar (n % 10)]) =
          10 * decodeDecimal (natDecimalAux fuel (n / 10)) +
            digitVal (Nat.digitChar (n % 10)) := by
        simp [decodeDecimal, List.foldl_append]
      rw [natDecimalAux, if_neg h0, hsplit, ih _ hq,
        digitVal_digitChar _ (Nat.mod_lt n (by norm_num))]
      omega

theorem decodeDecimal_natDecimal (n : Nat) :
    decodeDecimal (natDecimal n).data = n := by
  by_cases h0 : n = 0
  · subst h0; rfl
  · simp only [natDecimal, if_neg h0]
    exact decodeDecimal_aux n n le_rfl

theorem decodeDecimal_padNum (w n : Nat) :
    decodeDecimal (padNum w n).data = n := by
  have hz : ∀ (k : Nat) (cs : List Char),
      decodeDecimal (List.replicate k '0' ++ cs) = decodeDecimal cs := by
    intro k
    induction k with
    | zero => intro cs; simp
    | succ k ih =>
      intro cs
      have h0 : (10 * 0 + digitVal '0') = 0 := rfl
      simp only [List.replicate_succ, List.cons_append, decodeDecimal,
        List.foldl_cons, h0] at *
      exact ih cs
  by_cases h : (natDecimal n).length < w
  · simp only [padNum, if_pos h, String.data_append]
    rw [hz]
    exact decodeDecimal_natDecimal n
  · simp only [padNum, if_neg h]
    exact decodeDecimal_natDecimal n

theorem padNum_inj (w a b : Nat) (h : padNum w a = padNum w b) : a = b := by
  have := congrArg (fun s => decodeDecimal s.data) h
  simpa [decodeDecimal_padNum] using this

theorem generate_getD (o : Oracle) (count i : Nat) (h : i < count) :
    (generate_test_events o count).getD i default = makeEvent o i := by
  simp [generate_test_events, List.getD_eq_getElem?_getD, List.getElem?_map,
    List.getElem?_range h]

theorem mem_generate (o : Oracle) (count : Nat) (e : Event)
    (h : e ∈ generate_test_events o count) : ∃ i, i < count ∧ e = makeEvent o i := by
  simp only [generate_test_events, List.mem_map, List.mem_range] at h
  obtain ⟨i, hi, he⟩ := h
  exact ⟨i, hi, he.symm⟩

theorem choiceStr_mem (o : Oracle) (ho : LawfulOracle o) (t : Nat) (xs : List String)
    (hx : xs ≠ []) : choiceStr o t xs ∈ xs := by
  have hlt := ho.choiceIdx_lt xs.length t (List.length_pos.mpr hx)
  rw [choiceStr, List.getD_eq_getElem _ _ hlt]
  exact List.getElem_mem hlt

/-- C1: for every count, the generator returns exactly count records. -/
theorem generate_length (o : Oracle) (count : Nat) :
    (generate_test_events o count).length = count := by
  simp [generate_test_events]

/-- C2: the record at index i carries id perf_test_2024_ followed by the
index zero padded to width 3, and ids at distinct indices differ. -/
theorem event_id_spec (o : Oracle) (count i j : Nat) (hi : i < count) (hj : j < count) :
    ((generate_test_events o count).getD i default).id = "perf_test_2024_" ++ padNum 3 i ∧
    (i ≠ j →
      ((generate_test_events o count).getD i default).id ≠
        ((generate_test_events o count).getD j default).id) := by
  rw [generate_getD o count i hi, generate_getD o count j hj]
  refine ⟨rfl, fun hne heq => hne ?_⟩
  have heq2 : ("perf_test_2024_" ++ padNum 3 i : String) = "perf_test_2024_" ++ padNum 3 j := heq
  have h2 := congrArg String.data heq2
  rw [String.data_append, String.data_append] at h2
  have h3 := List.append_cancel_left h2
  have h4 := congrArg decodeDecimal h3
  simpa [decodeDecimal_padNum] using h4

theorem event_id_spec_witness :
    ((generate_test_events constOracle 2).getD 0 default).id = "perf_test_2024_" ++ padNum 3 0 ∧
    ((0 : Nat) ≠ 1 →
      ((generate_test_events constOracle 2).getD 0 default).id ≠
        ((generate_test_events constOracle 2).getD 1 default).id) :=
  event_id_spec constOracle 2 0 1 (by decide) (by decide)

/-- C3: every generated record has latitude in the closed interval from
-80 to 80 and longitude in the closed interval from -170 to 170, and
its bounds edges equal the center shifted by exactly one half in each
axis, with no further randomness. -/
theorem coordinates_spec (o : Oracle) (ho : LawfulOracle o) (count : Nat) (e : Event)
    (he : e ∈ generate_test_events o count) :
    -80 ≤ e.coordinates.lat ∧ e.coordinates.lat ≤ 80 ∧
    -170 ≤ e.coordinates.lng ∧ e.coordinates.lng ≤ 170 ∧
    e.coordinates.bounds.north = e.coordinates.lat + 0.5 ∧
    e.coordinates.bounds.south = e.coordinates.lat - 0.5 ∧
    e.coordinates.bounds.east = e.coordinates.lng + 0.5 ∧
    e.coordinates.bounds.west = e.coordinates.lng - 0.5 := by
  obtain ⟨i, hi, rfl⟩ := mem_generate o count e he
  have hlat := ho.uniform_mem (-80) 80 (9 * i + 2) (by norm_num)
  have hlng := ho.uniform_mem (-170) 170 (9 * i + 3) (by norm_num)
  exact ⟨hlat.1, hlat.2, hlng.1, hlng.2, rfl, rfl, rfl, rfl⟩

theorem coordinates_spec_witness :
    -80 ≤ (makeEvent constOracle 0).coordinates.lat ∧
    (makeEvent constOracle 0).coordinates.lat ≤ 80 ∧
    -170 ≤ (makeEvent constOracle 0).coordinates.lng ∧
    (makeEvent constOracle 0).coordinates.lng ≤ 170 ∧
    (makeEvent constOracle 0).coordinates.bounds.north =
      (makeEvent constOracle 0).coordinates.lat + 0.5 ∧
    (makeEvent constOracle 0).coordinates.bounds.south =
      (makeEvent constOracle 0).coordinates.lat - 0.5 ∧
    (makeEvent constOracle 0).coordinates.bounds.east =
      (makeEvent constOracle 0).coordinates.lng + 0.5 ∧
    (makeEvent constOracle 0).coordinates.bounds.west =
      (makeEvent constOracle 0).coordinates.lng - 0.5 :=
  coordinates_spec constOracle constOracle_lawful 1 (makeEvent constOracle 0)
    (by rw [show generate_test_events constOracle 1 = [makeEvent constOracle 0] from rfl]
        exact List.mem_singleton.mpr rfl)

/-- C4: every generated record draws its type, severity and instrument
fields from the three constant lists of the source. -/
theorem enum_fields_spec (o : Oracle) (ho : LawfulOracle o) (count : Nat) (e : Event)
    (he : e ∈ generate_test_events o count) :
    e.type ∈ types ∧ e.severity ∈ severities ∧ e.instrument ∈ instruments := by
  obtain ⟨i, hi, rfl⟩ := mem_generate o count e he
  exact ⟨choiceStr_mem o ho (9 * i + 4) types (by simp [types]),
    choiceStr_mem o ho (9 * i + 5) severities (by simp [severities]),
    choiceStr_mem o ho (9 * i + 6) instruments (by simp [instruments])⟩

theorem enum_fields_spec_witness :
    (makeEvent constOracle 0).type ∈ types ∧
    (makeEvent constOracle 0).severity ∈ severities ∧
    (makeEvent constOracle 0).instrument ∈ instruments :=
  enum_fields_spec constOracle constOracle_lawful 1 (makeEvent constOracle 0)
    (by rw [show generate_test_events constOracle 1 = [makeEvent constOracle 0] from rfl]
        exact List.mem_singleton.mpr rfl)

/-- C5: every generated record has confidence in the half open unit
interval and temperature in the closed interval from 20 to 70. -/
theorem metadata_ranges (o : Oracle) (ho : LawfulOracle o) (count : Nat) (e : Event)
    (he : e ∈ generate_test_events o count) :
    0 ≤ e.metadata.confidence ∧ e.metadata.confidence < 1 ∧
    20 ≤ e.metadata.temperature ∧ e.metadata.temperature ≤ 70 := by
  obtain ⟨i, hi, rfl⟩ := mem_generate o count e he
  have hc := ho.random01_mem (9 * i + 7)
  have ht := ho.uniform_mem 20 70 (9 * i + 8) (by norm_num)
  exact ⟨hc.1, hc.2, ht.1, ht.2⟩

theorem metadata_ranges_witness :
    0 ≤ (makeEvent constOracle 0).metadata.confidence ∧
    (makeEvent constOracle 0).metadata.confidence < 1 ∧
    20 ≤ (makeEvent constOracle 0).metadata.temperature ∧
    (makeEvent constOracle 0).metadata.temperature ≤ 70 :=
  metadata_ranges constOracle constOracle_lawful 1 (makeEvent constOracle 0)
    (by rw [show generate_test_events constOracle 1 = [makeEvent constOracle 0] from rfl]
        exact List.mem_singleton.mpr rfl)

/-- C6: every generated timestamp is the naive midnight isoformat of a
date in year 2024 with month between 1 and 12 and day between 1 and 28,
with a literal Z character appended and no timezone conversion. -/
theorem timestamp_spec (o : Oracle) (ho : LawfulOracle o) (count : Nat) (e : Event)
    (he : e ∈ generate_test_events o count) :
    ∃ m d : Nat, 1 ≤ m ∧ m ≤ 12 ∧ 1 ≤ d ∧ d ≤ 28 ∧
      e.timestamp = isoDatetimeMidnight 2024 m d ++ "Z" := by
  obtain ⟨i, hi, rfl⟩ := mem_generate o count e he
  have hm := ho.randint_mem 1 12 (9 * i) (by norm_num)
  have hd := ho.randint_mem 1 28 (9 * i + 1) (by norm_num)
  refine ⟨(o.randint 1 12 (9 * i)).toNat, (o.randint 1 28 (9 * i + 1)).toNat,
    ?_, ?_, ?_, ?_, rfl⟩ <;> omega

theorem timestamp_spec_witness :
    ∃ m d : Nat, 1 ≤ m ∧ m ≤ 12 ∧ 1 ≤ d ∧ d ≤ 28 ∧
      (makeEvent constOracle 0).timestamp = isoDatetimeMidnight 2024 m d ++ "Z" :=
  timestamp_spec constOracle constOracle_lawful 1 (makeEvent constOracle 0)
    (by rw [show generate_test_events constOracle 1 = [makeEvent constOracle 0] from rfl]
        exact List.mem_singleton.mpr rfl)

theorem padNum2_length (n : Nat) (h1 : 1 ≤ n) (h2 : n ≤ 28) :
    (padNum 2 n).length = 2 := by
  interval_cases n <;> rfl

theorem iso_split (m d : Nat) :
    isoDatetimeMidnight 2024 m d ++ "Z" =
      "2024-" ++ padNum 2 m ++ "-" ++ padNum 2 d ++ "T00:00:00Z" := by
  apply String.ext
  simp only [isoDatetimeMidnight, String.data_append, List.append_assoc]
  rfl

/-- C10: the time of day in every generated timestamp is midnight: the
string is 2024-MM-DDT00:00:00Z with two digit month and day fields. -/
theorem timestamp_midnight (o : Oracle) (ho : LawfulOracle o) (count : Nat) (e : Event)
    (he : e ∈ generate_test_events o count) :
    ∃ mm dd : String, mm.length = 2 ∧ dd.length = 2 ∧
      e.timestamp = "2024-" ++ mm ++ "-" ++ dd ++ "T00:00:00Z" := by
  obtain ⟨i, hi, rfl⟩ := mem_generate o count e he
  have hm := ho.randint_mem 1 12 (9 * i) (by norm_num)
  have hd := ho.randint_mem 1 28 (9 * i + 1) (by norm_num)
  refine ⟨padNum 2 (o.randint 1 12 (9 * i)).toNat,
    padNum 2 (o.randint 1 28 (9 * i + 1)).toNat,
    padNum2_length _ (by omega) (by omega),
    padNum2_length _ (by omega) (by omega), ?_⟩
  exact iso_split (o.randint 1 12 (9 * i)).toNat (o.randint 1 28 (9 * i + 1)).toNat

theorem timestamp_midnight_witness :
    ∃ mm dd : String, mm.length = 2 ∧ dd.length = 2 ∧
      (makeEvent constOracle 0).timestamp = "2024-" ++ mm ++ "-" ++ dd ++ "T00:00:00Z" :=
  timestamp_midnight constOracle constOracle_lawful 1 (makeEvent constOracle 0)
    (by rw [show generate_test_events constOracle 1 = [makeEvent constOracle 0] from rfl]
        exact List.mem_singleton.mpr rfl)

/-- C7: for every requested count the envelope has schemaVersion 1,
year 2024, and an events array of exactly the requested length; the
shipped script requests 500. -/
theorem envelope_spec (o : Oracle) (count : Nat) :
    (test_data o count).schemaVersion = 1 ∧ (test_data o count).year = 2024 ∧
    (test_data o count).events.length = count ∧
    (test_data o 500).events.length = 500 := by
  refine ⟨rfl, rfl, ?_, ?_⟩ <;> simp [test_data, generate_test_events]

theorem decodeEvent_encodeEvent (e : Event) : decodeEvent (encodeEvent e) = some e := by
  rcases e with ⟨id, title, ts, ty, sev, ins, ⟨la, ln, ⟨n, s, ea, w⟩⟩, ⟨cf, tp, ds, sr, pt⟩⟩
  rfl

theorem decodeEvents_map (es : List Event) :
    decodeEvents (es.map encodeEvent) = some es := by
  induction es with
  | nil => rfl
  | cons e es ih => simp [decodeEvents, decodeEvent_encodeEvent, ih]

theorem decodeInt_intCast (n : Int) : decodeInt (.num (n : ℚ)) = some n := by
  simp [decodeInt, Rat.den_intCast, Rat.num_intCast]

/-- C8: deserializing the serialized envelope returns the envelope
unchanged, so the write and read pair is lossless for this data shape. -/
theorem json_roundtrip (v : Envelope) :
    decodeEnvelope (encodeEnvelope v) = some v := by
  rcases v with ⟨sv, yr, es⟩
  simp only [encodeEnvelope, decodeEnvelope]
  rw [decodeInt_intCast, decodeInt_intCast, decodeEvents_map]
